import Mathlib

/-!
Shallow embedding of the rustcord control layer (scene switcher, adaptive
streaming controller, hardware encoder selector) and proofs of the spec's
claims about it.

Conventions of the embedding:
* Rust `u32`/`u64` are modelled as `Nat`; additions that can overflow in
  release builds carry an explicit `% 2^32`; `saturating_sub` is `Nat` `-`.
* `f64` quantities that only feed threshold comparisons or linear alpha
  interpolation are modelled as exact rationals (`ℚ`); at every concrete
  input used below the `f64` computation takes the same branch.
* Fallible facade calls (element factories, pipeline add, linking,
  `sync_state_with_parent`, pad lookup) are driven by explicit boolean
  environments; property writes are collected as explicit write lists.
-/

namespace Rustcord

/-! ## Adaptive streaming controller (src/extensions/streaming.rs) -/

/-- `u32` modulus: additions on `current_bitrate` wrap here in release builds. -/
def U32MOD : ℕ := 2 ^ 32

/-- One tick of the loop body in `start_adaptive_bitrate`
(src/extensions/streaming.rs lines 151-165).  `encAlive` is whether
`encoder_weak.upgrade()` succeeds; when it fails the whole adjustment block is
skipped.  `kbitsPerSec` is the measured throughput.  Returns the new
task-local `current_bitrate` and the value pushed to the encoder's
`bitrate` property, if any. -/
def adaptTick (minBr maxBr : ℕ) (encAlive : Bool) (current : ℕ)
    (kbitsPerSec : ℚ) : ℕ × Option ℕ :=
  if encAlive then
    if kbitsPerSec < (current : ℚ) * (7 / 10) then
      let nb := min ((current + 256) % U32MOD) maxBr
      (nb, some nb)
    else if kbitsPerSec > (current : ℚ) * (19 / 20) then
      let nb := max (current - 256) minBr
      (nb, some nb)
    else
      (current, none)
  else
    (current, none)

/-- Run a sequence of adaptive ticks, threading the task-local bitrate. -/
def runAdapt (minBr maxBr : ℕ) (current : ℕ) : List (Bool × ℚ) → ℕ
  | [] => current
  | (alive, tp) :: rest =>
      runAdapt minBr maxBr (adaptTick minBr maxBr alive current tp).1 rest

/-- Streaming protocols (src/extensions/streaming.rs lines 11-15). -/
inductive StreamingProtocol where
  | RTMP (loc : String)
  | SRT (loc : String)
  | HLS (dir : String)
deriving DecidableEq, Repr

/-- The mux element kind chosen for a protocol in `add_output`. -/
def muxKind : StreamingProtocol → String
  | .RTMP _ => "flvmux"
  | .SRT _ => "mpegtsmux"
  | .HLS _ => "mpegtsmux"

/-- The sink element kind chosen for a protocol in `add_output`. -/
def sinkKind : StreamingProtocol → String
  | .RTMP _ => "rtmpsink"
  | .SRT _ => "srtsink"
  | .HLS _ => "hlssink"

/-- Outcome of the fallible facade calls made by one `add_output` attempt:
whether each `ElementFactory::make` succeeds, whether each element of
`pipeline.add_many` succeeds (the binding adds one element at a time and
stops at the first failure), whether each `sync_state_with_parent` succeeds,
and whether `link_many(queue, mux, sink)` succeeds. -/
structure AddOutputEnv where
  queueMakeOk : Bool
  muxMakeOk : Bool
  sinkMakeOk : Bool
  addQueueOk : Bool
  addMuxOk : Bool
  addSinkOk : Bool
  syncQueueOk : Bool
  syncMuxOk : Bool
  syncSinkOk : Bool
  linkOk : Bool
deriving DecidableEq, Repr

/-- Error classification of `add_output`. `elementUnavailable` is a factory
failure, `linkFailure` is the mapped `link_many` failure; `other` covers
`add_many`/`sync_state_with_parent` failures, which propagate as plain
errors. -/
inductive AddOutputError where
  | elementUnavailable
  | linkFailure
  | other
deriving DecidableEq, Repr

/-- State of a `MultiStreamingManager` as far as `add_output`/`link_input`
observe it: the kinds of elements currently attached to the pipeline (in
order of addition) and the list of stored outputs (protocol tag plus whether
its branch link succeeded is implicit: an output is only stored after a
successful link). -/
structure MgrGraph where
  attached : List String
  outputs : List StreamingProtocol
deriving DecidableEq, Repr

/-- `add_output` (src/extensions/streaming.rs lines 58-102).  Factory
failures return before anything touches the pipeline.  After `add_many`
attaches queue, mux and sink, every later failure (`sync_state_with_parent`
or `link_many`) returns with the elements still attached: the code performs
no rollback. -/
def add_output (env : AddOutputEnv) (st : MgrGraph) (p : StreamingProtocol) :
    Except AddOutputError Unit × MgrGraph :=
  if ¬ env.queueMakeOk then (.error .elementUnavailable, st)
  else if ¬ env.muxMakeOk then (.error .elementUnavailable, st)
  else if ¬ env.sinkMakeOk then (.error .elementUnavailable, st)
  -- pipeline.add_many(&[&queue, &mux, &sink])? adds one element at a time
  else if ¬ env.addQueueOk then (.error .other, st)
  else if ¬ env.addMuxOk then
    (.error .other, { st with attached := st.attached ++ ["queue"] })
  else if ¬ env.addSinkOk then
    (.error .other, { st with attached := st.attached ++ ["queue", muxKind p] })
  else if ¬ env.syncQueueOk then
    (.error .other,
     { st with attached := st.attached ++ ["queue", muxKind p, sinkKind p] })
  else if ¬ env.syncMuxOk then
    (.error .other,
     { st with attached := st.attached ++ ["queue", muxKind p, sinkKind p] })
  else if ¬ env.syncSinkOk then
    (.error .other,
     { st with attached := st.attached ++ ["queue", muxKind p, sinkKind p] })
  else if ¬ env.linkOk then
    (.error .linkFailure,
     { st with attached := st.attached ++ ["queue", muxKind p, sinkKind p] })
  else
    (.ok (),
     { attached := st.attached ++ ["queue", muxKind p, sinkKind p],
       outputs := st.outputs ++ [p] })

/-- Per-branch outcome of a `link_input` call. -/
inductive BranchLink where
  | linked
  | failedAttempt
  | notAttempted
deriving DecidableEq, Repr

/-- `link_input` (src/extensions/streaming.rs lines 107-116): iterate over
the outputs in order, linking `src_element` to each branch's queue; the `?`
inside the loop returns the first failure immediately.  `oks i` says whether
the link for branch `i` would succeed.  Returns overall success and the
status of every branch. -/
def link_input : List Bool → Bool × List BranchLink
  | [] => (true, [])
  | ok :: rest =>
      if ok then
        let r := link_input rest
        (r.1, .linked :: r.2)
      else
        (false, .failedAttempt :: rest.map fun _ => .notAttempted)

/-- The scalar fields of `MultiStreamingManager` relevant to the adaptive
loop, plus the shared byte counter (`bytes_sent` is behind an `Arc`, so the
spawned task and `record_bytes_sent` observe the same counter).
Timestamps are rational seconds. -/
structure Mgr where
  current_bitrate : ℕ
  min_bitrate : ℕ
  max_bitrate : ℕ
  check_interval : ℚ
  last_check : ℚ
  bytes_sent : ℕ
deriving DecidableEq, Repr

/-- The task-local state captured by the closure spawned by
`start_adaptive_bitrate` (src/extensions/streaming.rs lines 125-139):
`min_br`, `max_br`, `interval` are copies made at call time, `last_time`
starts as a copy of `last_check`, `last_bytes` starts at 0, and
`current_bitrate` is a copy of the manager's field. -/
structure LoopState where
  min_br : ℕ
  max_br : ℕ
  interval : ℚ
  last_time : ℚ
  last_bytes : ℕ
  current_bitrate : ℕ
deriving DecidableEq, Repr

/-- `start_adaptive_bitrate` (src/extensions/streaming.rs lines 120-175):
takes `&mut self` but only reads the manager, spawning a task whose state is
built from copies of the fields at call time. -/
def start_adaptive_bitrate (m : Mgr) : Mgr × LoopState :=
  (m, { min_br := m.min_bitrate, max_br := m.max_bitrate,
        interval := m.check_interval, last_time := m.last_check,
        last_bytes := 0, current_bitrate := m.current_bitrate })

/-- The whole system once the loop runs: manager plus task-local state. -/
structure Sys where
  mgr : Mgr
  loop : LoopState
deriving DecidableEq, Repr

/-- One iteration of the spawned loop (src/extensions/streaming.rs lines
142-170) acting on the whole system: reads the shared byte counter and the
task-local fields, adjusts the task-local bitrate via `adaptTick`, then
snapshots bytes and time.  The only encoder write is the one `adaptTick`
emits; no manager field is assigned. -/
def sysTick (encAlive : Bool) (now : ℚ) (s : Sys) : Sys × Option ℕ :=
  let elapsed := now - s.loop.last_time
  let bytesNow := s.mgr.bytes_sent
  let delta := bytesNow - s.loop.last_bytes
  let kbps : ℚ := ((delta : ℚ) * 8 / 1024) / elapsed
  let r := adaptTick s.loop.min_br s.loop.max_br encAlive
      s.loop.current_bitrate kbps
  let newLoop : LoopState :=
    { s.loop with
      current_bitrate := r.1
      last_bytes := bytesNow
      last_time := now }
  ({ s with loop := newLoop }, r.2)

/-- `record_bytes_sent` (src/extensions/streaming.rs lines 180-183). -/
def record_bytes_sent (s : Sys) (n : ℕ) : Sys :=
  { s with mgr := { s.mgr with bytes_sent := s.mgr.bytes_sent + n } }

/-- Run a list of loop iterations, collecting the encoder writes. -/
def runSys : Sys → List (Bool × ℚ) → Sys × List ℕ
  | s, [] => (s, [])
  | s, (alive, now) :: rest =>
      let r := sysTick alive now s
      let tail := runSys r.1 rest
      (tail.1, r.2.toList ++ tail.2)

/-! ## Scene switcher (src/extensions/scene_switcher.rs) -/

/-- A GObject property value as written to a compositor pad: integer
(geometry) or floating/rational (alpha). -/
inductive GVal where
  | i (z : ℤ)
  | f (q : ℚ)
deriving DecidableEq, Repr

/-- One `pad.set_property` call: pad name, property key, value. -/
structure PadWrite where
  pad : String
  prop : String
  value : GVal
deriving DecidableEq, Repr

/-- `SceneSource` (src/extensions/scene_switcher.rs lines 10-22); the
element reference is irrelevant to the claims and omitted. `width`/`height`
are `i32` in the source. -/
structure SceneSource where
  pad_index : ℕ
  x : ℤ
  y : ℤ
  width : ℤ
  height : ℤ
  alpha : ℚ
deriving DecidableEq, Repr

/-- `Scene` (src/extensions/scene_switcher.rs lines 25-28). -/
structure Scene where
  name : String
  sources : List SceneSource
deriving DecidableEq, Repr, Inhabited

/-- The `SceneSwitcher` fields the claims observe (compositor, main context
and the unused `alpha_map` are environment). -/
structure SceneSwitcher where
  scenes : List Scene
  current_scene_index : ℕ
  transition_duration : ℚ
deriving DecidableEq, Repr

/-- Compositor sink-pad name for a pad index: `format!("sink_{}", i)`. -/
def sinkPadName (i : ℕ) : String := "sink_" ++ toString i

/-- The five writes `apply_scene_layout` issues for one source
(src/extensions/scene_switcher.rs lines 152-156). -/
def sourceLayoutWrites (src : SceneSource) : List PadWrite :=
  [⟨sinkPadName src.pad_index, "xpos", .i src.x⟩,
   ⟨sinkPadName src.pad_index, "ypos", .i src.y⟩,
   ⟨sinkPadName src.pad_index, "width", .i src.width⟩,
   ⟨sinkPadName src.pad_index, "height", .i src.height⟩,
   ⟨sinkPadName src.pad_index, "alpha", .f src.alpha⟩]

/-- Loop body of `apply_scene_layout` over the scene's sources
(src/extensions/scene_switcher.rs lines 145-157): each source's pad is
looked up (`padOk` says whether `static_pad` finds it); a missing pad
aborts with an error, keeping the writes already issued. -/
def applyLayoutGo (padOk : String → Bool) :
    List SceneSource → Except String Unit × List PadWrite
  | [] => (.ok (), [])
  | src :: rest =>
      if padOk (sinkPadName src.pad_index) then
        let r := applyLayoutGo padOk rest
        (r.1, sourceLayoutWrites src ++ r.2)
      else
        (.error ("Cannot find compositor pad: " ++ sinkPadName src.pad_index),
         [])

/-- `apply_scene_layout` (src/extensions/scene_switcher.rs lines 143-159):
only ever called with a valid index. -/
def apply_scene_layout (padOk : String → Bool) (sw : SceneSwitcher)
    (scene_index : ℕ) : Except String Unit × List PadWrite :=
  applyLayoutGo padOk (sw.scenes.getD scene_index default).sources

/-- `set_initial_scene` (src/extensions/scene_switcher.rs lines 80-87):
validates the index, assigns `current_scene_index`, then applies the layout;
a layout error propagates after the index was already stored. -/
def set_initial_scene (padOk : String → Bool) (sw : SceneSwitcher)
    (index : ℕ) : Except String Unit × SceneSwitcher × List PadWrite :=
  if index ≥ sw.scenes.length then
    (.error "Scene index out of range.", sw, [])
  else
    let sw1 := { sw with current_scene_index := index }
    let r := apply_scene_layout padOk sw1 index
    (r.1, sw1, r.2)

/-- `update_source_geometry` (src/extensions/scene_switcher.rs lines
109-140): validates the scene index, requires a source with the given pad
index, then writes `xpos`/`ypos`/`width`/`height` on the compositor pad.
The switcher's stored scenes are only read, never assigned. -/
def update_source_geometry (padOk : String → Bool) (sw : SceneSwitcher)
    (scene_index : ℕ) (source_pad_index : ℕ) (x y width height : ℤ) :
    Except String Unit × SceneSwitcher × List PadWrite :=
  if scene_index ≥ sw.scenes.length then
    (.error "Invalid scene index.", sw, [])
  else
    let scene := sw.scenes.getD scene_index default
    match scene.sources.find? (fun s => s.pad_index == source_pad_index) with
    | none => (.error "No source found with that pad_index.", sw, [])
    | some _ =>
        let pn := sinkPadName source_pad_index
        if padOk pn then
          (.ok (), sw,
           [⟨pn, "xpos", .i x⟩, ⟨pn, "ypos", .i y⟩,
            ⟨pn, "width", .i width⟩, ⟨pn, "height", .i height⟩])
        else
          (.error ("Compositor pad not found: " ++ pn), sw, [])

/-- Pre-positioning writes of `fade_transition` for the incoming scene
(src/extensions/scene_switcher.rs lines 164-176): final geometry with
`alpha = 0`; a missing pad aborts with an error. -/
def fadePreGo (padOk : String → Bool) :
    List SceneSource → Except String Unit × List PadWrite
  | [] => (.ok (), [])
  | src :: rest =>
      if padOk (sinkPadName src.pad_index) then
        let r := fadePreGo padOk rest
        (r.1,
         [⟨sinkPadName src.pad_index, "xpos", .i src.x⟩,
          ⟨sinkPadName src.pad_index, "ypos", .i src.y⟩,
          ⟨sinkPadName src.pad_index, "width", .i src.width⟩,
          ⟨sinkPadName src.pad_index, "height", .i src.height⟩,
          ⟨sinkPadName src.pad_index, "alpha", .f 0⟩] ++ r.2)
      else
        (.error ("Cannot find pad for fade in: " ++ sinkPadName src.pad_index),
         [])

/-- Number of fade steps: `let steps = 30`. -/
def fadeSteps : ℕ := 30

/-- The alpha writes of one iteration of the spawned fade loop at
`progress = n` (src/extensions/scene_switcher.rs lines 190-209):
`frac = n / 30`, outgoing sources get `1 - frac`, incoming get `frac`;
a missing pad is silently skipped (`if let Some(pad)`). -/
def fadeRound (padOk : String → Bool) (oldSrcs newSrcs : List SceneSource)
    (n : ℕ) : List PadWrite :=
  (oldSrcs.filterMap fun src =>
    if padOk (sinkPadName src.pad_index) then
      some ⟨sinkPadName src.pad_index, "alpha", .f (1 - (n : ℚ) / 30)⟩
    else none) ++
  (newSrcs.filterMap fun src =>
    if padOk (sinkPadName src.pad_index) then
      some ⟨sinkPadName src.pad_index, "alpha", .f ((n : ℚ) / 30)⟩
    else none)

/-- The write-rounds of the spawned fade task: the loop runs
`progress = 0` while `progress <= steps`, i.e. rounds 0..=30. -/
def fadeSchedule (padOk : String → Bool) (oldSrcs newSrcs : List SceneSource) :
    List (List PadWrite) :=
  (List.range (fadeSteps + 1)).map (fadeRound padOk oldSrcs newSrcs)

/-- `fade_transition` (src/extensions/scene_switcher.rs lines 162-215):
pre-position the incoming scene, then spawn the stepping task.  Returns the
synchronous result, the pre-positioning writes, and the schedule of alpha
write-rounds the task will perform. -/
def fade_transition (padOk : String → Bool) (sw : SceneSwitcher)
    (old_idx new_idx : ℕ) :
    Except String Unit × List PadWrite × List (List PadWrite) :=
  let oldSrcs := (sw.scenes.getD old_idx default).sources
  let newSrcs := (sw.scenes.getD new_idx default).sources
  let pre := fadePreGo padOk newSrcs
  match pre.1 with
  | .error e => (.error e, pre.2, [])
  | .ok _ => (.ok (), pre.2, fadeSchedule padOk oldSrcs newSrcs)

/-- `fade_to_scene` (src/extensions/scene_switcher.rs lines 90-106). -/
def fade_to_scene (padOk : String → Bool) (sw : SceneSwitcher)
    (new_index : ℕ) :
    Except String Unit × SceneSwitcher × List PadWrite × List (List PadWrite) :=
  if new_index ≥ sw.scenes.length then
    (.error "Scene index out of range.", sw, [], [])
  else if sw.current_scene_index == new_index then
    (.ok (), sw, [], [])
  else
    let sw1 := { sw with current_scene_index := new_index }
    let r := fade_transition padOk sw1 sw.current_scene_index new_index
    (r.1, sw1, r.2.1, r.2.2)

/-! ## Hardware encoder selector (src/extensions/hardware_accel.rs) -/

/-- `AccelMode` (src/extensions/hardware_accel.rs lines 7-12). -/
inductive AccelMode where
  | VAAPI
  | NVENC
  | AMF
  | Software
deriving DecidableEq, Repr

/-- Outcomes of the facade calls one encoder-backend attempt can make:
`ElementFactory::make`, `pipeline.add`, `sync_state_with_parent`,
`upstream.link(enc)`, `enc.link(downstream)`, and `pipeline.remove`
(used on link failure). -/
structure BackendEnv where
  makeOk : Bool
  addOk : Bool
  syncOk : Bool
  linkUpOk : Bool
  linkDownOk : Bool
  removeOk : Bool
deriving DecidableEq, Repr

/-- The environment of one `setup_unified_hardware_accel` call: the parsed
contents of `/tmp/fake_gpu_usage` (`none` if missing or unparsable) and the
facade outcomes for each backend. -/
structure AccelEnv where
  gpuRaw : Option ℚ
  vaapi : BackendEnv
  nvenc : BackendEnv
  amf : BackendEnv
  x264 : BackendEnv
deriving DecidableEq, Repr

/-- `read_gpu_usage` (src/extensions/hardware_accel.rs lines 85-94): parsed
values are clamped to `[0, 100]`; a missing/unparsable file yields `0`.
The function never errors. -/
def read_gpu_usage (raw : Option ℚ) : ℚ :=
  match raw with
  | some v => max 0 (min v 100)
  | none => 0

/-- Observable trace of a selector call: the result, the encoder factory
kinds attempted via `ElementFactory::make` in order, and the encoder
element kinds attached to the pipeline at return. -/
structure AccelTrace where
  result : Except String AccelMode
  makes : List String
  attached : List String
deriving Repr

/-- Outcome of one hardware-backend block: either the function returns
(success or fatal error), or it falls through to the next backend. -/
inductive HwOutcome where
  | returned (t : AccelTrace)
  | moveOn (makes attached : List String)
deriving Repr

/-- One hardware-backend block of `setup_unified_hardware_accel`
(e.g. src/extensions/hardware_accel.rs lines 29-38 for VAAPI): a factory
failure silently falls through; `pipeline.add(..)?` and
`sync_state_with_parent()?` failures return an error; a link failure removes
the element and falls through; full success returns the mode. -/
def hwTry (b : BackendEnv) (kind : String) (makes attached : List String)
    (mode : AccelMode) : HwOutcome :=
  if ¬ b.makeOk then
    .moveOn (makes ++ [kind]) attached
  else if ¬ b.addOk then
    .returned ⟨.error ("failed to add " ++ kind), makes ++ [kind], attached⟩
  else if ¬ b.syncOk then
    .returned ⟨.error ("failed to sync " ++ kind), makes ++ [kind],
      attached ++ [kind]⟩
  else if b.linkUpOk && b.linkDownOk then
    .returned ⟨.ok mode, makes ++ [kind], attached ++ [kind]⟩
  else if ¬ b.removeOk then
    .returned ⟨.error ("failed to remove " ++ kind), makes ++ [kind],
      attached ++ [kind]⟩
  else
    .moveOn (makes ++ [kind]) attached

/-- `use_software_x264` (src/extensions/hardware_accel.rs lines 70-82),
with the `Ok(AccelMode::Software)` the caller wraps around a success. -/
def use_software_x264 (b : BackendEnv) (makes attached : List String) :
    AccelTrace :=
  let m := makes ++ ["x264enc"]
  if ¬ b.makeOk then ⟨.error "x264enc plugin not available.", m, attached⟩
  else if ¬ b.addOk then ⟨.error "failed to add x264enc", m, attached⟩
  else if ¬ b.syncOk then
    ⟨.error "failed to sync x264enc", m, attached ++ ["x264enc"]⟩
  else if ¬ b.linkUpOk then
    ⟨.error "Failed to link upstream -> x264enc.", m, attached ++ ["x264enc"]⟩
  else if ¬ b.linkDownOk then
    ⟨.error "Failed to link x264enc -> downstream.", m,
      attached ++ ["x264enc"]⟩
  else ⟨.ok .Software, m, attached ++ ["x264enc"]⟩

/-- `setup_unified_hardware_accel` (src/extensions/hardware_accel.rs lines
14-68): if the GPU probe reads strictly above 90, go software immediately;
otherwise try VAAPI, NVENC, AMF in order, falling back to software. -/
def setup_unified_hardware_accel (env : AccelEnv) : AccelTrace :=
  if read_gpu_usage env.gpuRaw > 90 then
    use_software_x264 env.x264 [] []
  else
    match hwTry env.vaapi "vaapih264enc" [] [] .VAAPI with
    | .returned t => t
    | .moveOn m1 a1 =>
      match hwTry env.nvenc "nvh264enc" m1 a1 .NVENC with
      | .returned t => t
      | .moveOn m2 a2 =>
        match hwTry env.amf "amfenc_h264" m2 a2 .AMF with
        | .returned t => t
        | .moveOn m3 a3 => use_software_x264 env.x264 m3 a3

/-! ## Theorems -/

/-- One adaptive tick preserves `[minBr, maxBr]` provided the 256-kbps
increase cannot wrap around `u32`. -/
lemma adaptTick_mem (minBr maxBr cur : ℕ) (alive : Bool) (tp : ℚ)
    (hof : maxBr + 256 < U32MOD) (h1 : minBr ≤ cur) (h2 : cur ≤ maxBr) :
    minBr ≤ (adaptTick minBr maxBr alive cur tp).1 ∧
      (adaptTick minBr maxBr alive cur tp).1 ≤ maxBr := by
  unfold adaptTick
  rcases alive with _ | _
  · simpa using ⟨h1, h2⟩
  · simp only [if_true]
    split
    · have hlt : cur + 256 < U32MOD := by omega
      rw [Nat.mod_eq_of_lt hlt]
      constructor
      · exact le_min (by omega) (le_trans h1 h2)
      · exact min_le_right _ _
    · split
      · constructor
        · exact le_max_right _ _
        · exact max_le (by omega) (le_trans h1 h2)
      · exact ⟨h1, h2⟩

/-- Running any tick sequence preserves `[minBr, maxBr]` under the same
no-overflow side condition. -/
lemma runAdapt_mem (minBr maxBr : ℕ) (hof : maxBr + 256 < U32MOD) :
    ∀ (ticks : List (Bool × ℚ)) (cur : ℕ), minBr ≤ cur → cur ≤ maxBr →
      minBr ≤ runAdapt minBr maxBr cur ticks ∧
        runAdapt minBr maxBr cur ticks ≤ maxBr
  | [], cur, h1, h2 => ⟨h1, h2⟩
  | (alive, tp) :: rest, cur, h1, h2 => by
      have hstep := adaptTick_mem minBr maxBr cur alive tp hof h1 h2
      exact runAdapt_mem minBr maxBr hof rest _ hstep.1 hstep.2

/-- C1 (counterexample): as stated, the claim fails.  With
`min = max = 2^32 - 1` and initial bitrate `2^32 - 1` (all within `u32`,
and the initial bitrate is inside `[min, max]`), a single tick with
measured throughput `0` takes the increase branch, the `u32` addition
`current_bitrate + 256` wraps, and the bitrate becomes `255`, far below
`min`. -/
theorem claim_C1_counterexample :
    (2 ^ 32 - 1 ≤ 2 ^ 32 - 1 ∧ (2 ^ 32 - 1 : ℕ) ≤ 2 ^ 32 - 1) ∧
      runAdapt (2 ^ 32 - 1) (2 ^ 32 - 1) (2 ^ 32 - 1) [(true, 0)] = 255 ∧
      ¬ (2 ^ 32 - 1 : ℕ) ≤
          runAdapt (2 ^ 32 - 1) (2 ^ 32 - 1) (2 ^ 32 - 1) [(true, 0)] := by
  refine ⟨⟨le_refl _, le_refl _⟩, ?_⟩
  have h : runAdapt (2 ^ 32 - 1) (2 ^ 32 - 1) (2 ^ 32 - 1) [(true, 0)]
      = 255 := by
    norm_num [runAdapt, adaptTick, U32MOD]
  rw [h]
  norm_num

/-- C1 (amended): if additionally `max_bitrate + 256 < 2^32` — so the
256-kbps increase can never wrap the `u32` — then for every initial
bitrate in `[min_bitrate, max_bitrate]` and every sequence of ticks with
arbitrary liveness flags and measured throughputs, the task-local bitrate
stays within `[min_bitrate, max_bitrate]` after every tick. -/
theorem claim_C1_amended (minBr maxBr cur : ℕ) (ticks : List (Bool × ℚ))
    (hof : maxBr + 256 < U32MOD) (h1 : minBr ≤ cur) (h2 : cur ≤ maxBr) :
    minBr ≤ runAdapt minBr maxBr cur ticks ∧
      runAdapt minBr maxBr cur ticks ≤ maxBr :=
  runAdapt_mem minBr maxBr hof ticks cur h1 h2

/-- Witness for C1 (amended) at a concrete input. -/
theorem claim_C1_witness :
    1000 ≤ runAdapt 1000 8000 4000 [(true, 0), (true, 500000), (false, 3)] ∧
      runAdapt 1000 8000 4000 [(true, 0), (true, 500000), (false, 3)] ≤ 8000 :=
  claim_C1_amended 1000 8000 4000 [(true, 0), (true, 500000), (false, 3)]
    (by norm_num [U32MOD]) (by norm_num) (by norm_num)

/-- C7: with `current = 4000`, `min = 1000`, `max = 8000`, a live encoder:
measured throughput 2000 kbps (below 70% of 4000) yields bitrate 4256 and
pushes 4256 to the encoder; measured throughput 3900 kbps (above 95% of
4000) yields 3744 and pushes 3744. -/
theorem claim_C7_tick_values :
    adaptTick 1000 8000 true 4000 2000 = (4256, some 4256) ∧
      adaptTick 1000 8000 true 4000 3900 = (3744, some 3744) := by
  constructor <;> norm_num [adaptTick, U32MOD]

/-- An `add_output` environment where every facade call succeeds except the
`queue -> mux -> sink` link. -/
def envLinkFail : AddOutputEnv :=
  ⟨true, true, true, true, true, true, true, true, true, false⟩

/-- C2 (counterexample): as stated, the claim fails.  Starting from an empty
manager, with every element instantiating and attaching but the
`queue -> mux -> sink` link failing, `add_output` returns `LinkFailure`
while the queue, mux and sink of the attempted branch are all still
attached to the pipeline — the branch is not rolled back. -/
theorem claim_C2_counterexample :
    (add_output envLinkFail ⟨[], []⟩ (.RTMP "rtmp://live/stream")).1
        = .error .linkFailure ∧
      (add_output envLinkFail ⟨[], []⟩ (.RTMP "rtmp://live/stream")).2.attached
        = ["queue", "flvmux", "rtmpsink"] ∧
      (add_output envLinkFail ⟨[], []⟩ (.RTMP "rtmp://live/stream")).2.outputs
        = [] := by
  refine ⟨rfl, rfl, rfl⟩

/-- C2 (amended): when `add_output` fails with `ElementUnavailable` (a
factory failure) the manager is completely unchanged — no element attached,
outputs untouched; but when it fails with `LinkFailure` the outputs list is
unchanged while the attempted branch's queue, mux and sink all remain
attached to the pipeline (no rollback); on any error the outputs list is
unchanged. -/
theorem claim_C2_amended (env : AddOutputEnv) (st : MgrGraph)
    (p : StreamingProtocol) :
    ((add_output env st p).1 = .error .elementUnavailable →
        (add_output env st p).2 = st) ∧
      ((add_output env st p).1 = .error .linkFailure →
        (add_output env st p).2.outputs = st.outputs ∧
          (add_output env st p).2.attached
            = st.attached ++ ["queue", muxKind p, sinkKind p]) ∧
      (∀ e, (add_output env st p).1 = .error e →
        (add_output env st p).2.outputs = st.outputs) := by
  by_cases h1 : env.queueMakeOk = true
  case neg => simp [add_output, h1]
  by_cases h2 : env.muxMakeOk = true
  case neg => simp [add_output, h1, h2]
  by_cases h3 : env.sinkMakeOk = true
  case neg => simp [add_output, h1, h2, h3]
  by_cases h4 : env.addQueueOk = true
  case neg => simp [add_output, h1, h2, h3, h4]
  by_cases h5 : env.addMuxOk = true
  case neg => simp [add_output, h1, h2, h3, h4, h5]
  by_cases h6 : env.addSinkOk = true
  case neg => simp [add_output, h1, h2, h3, h4, h5, h6]
  by_cases h7 : env.syncQueueOk = true
  case neg => simp [add_output, h1, h2, h3, h4, h5, h6, h7]
  by_cases h8 : env.syncMuxOk = true
  case neg => simp [add_output, h1, h2, h3, h4, h5, h6, h7, h8]
  by_cases h9 : env.syncSinkOk = true
  case neg => simp [add_output, h1, h2, h3, h4, h5, h6, h7, h8, h9]
  by_cases h10 : env.linkOk = true
  case neg => simp [add_output, h1, h2, h3, h4, h5, h6, h7, h8, h9, h10]
  simp [add_output, h1, h2, h3, h4, h5, h6, h7, h8, h9, h10]

/-- Witness for C2 (amended) at a concrete input. -/
theorem claim_C2_witness :
    (add_output envLinkFail ⟨["tee"], []⟩ (.SRT "srt://h:9000")).2.outputs
        = [] ∧
      (add_output envLinkFail ⟨["tee"], []⟩ (.SRT "srt://h:9000")).2.attached
        = ["tee"] ++ ["queue", "mpegtsmux", "srtsink"] :=
  (claim_C2_amended envLinkFail ⟨["tee"], []⟩ (.SRT "srt://h:9000")).2.1 rfl

/-- C5 (counterexample): as stated, the claim fails.  With three branches
where only the second link fails, `link_input` returns after the second
branch: the third branch is never attempted (so failures are neither
aggregated nor is every branch attempted), while the first branch stays
linked. -/
theorem claim_C5_counterexample :
    link_input [true, false, true]
        = (false, [.linked, .failedAttempt, .notAttempted]) ∧
      BranchLink.notAttempted ∈ (link_input [true, false, true]).2 := by
  constructor
  · rfl
  · decide

/-- C5 (amended): `link_input` attempts branches in order and returns the
first failing branch's error immediately: when every branch links it
succeeds with all branches linked, and when the first failure occurs at
branch `pre.length` the earlier branches remain linked (not rolled back)
while all later branches are never attempted. -/
theorem claim_C5_amended (pre post : List Bool)
    (hpre : ∀ b ∈ pre, b = true) :
    link_input pre = (true, pre.map fun _ => BranchLink.linked) ∧
      link_input (pre ++ false :: post)
        = (false, (pre.map fun _ => BranchLink.linked) ++
            BranchLink.failedAttempt ::
              (post.map fun _ => BranchLink.notAttempted)) := by
  induction pre with
  | nil => exact ⟨rfl, by simp [link_input]⟩
  | cons b rest ih =>
      have hb : b = true := hpre b (List.mem_cons_self b rest)
      have hrest : ∀ x ∈ rest, x = true := fun x hx =>
        hpre x (List.mem_cons_of_mem b hx)
      obtain ⟨ih1, ih2⟩ := ih hrest
      subst hb
      constructor
      · simp [link_input, ih1]
      · simp [link_input, ih2]

/-- Witness for C5 (amended) at a concrete input. -/
theorem claim_C5_witness :
    link_input [true] = (true, [BranchLink.linked]) ∧
      link_input ([true] ++ false :: [true])
        = (false, [BranchLink.linked] ++
            BranchLink.failedAttempt :: [BranchLink.notAttempted]) :=
  claim_C5_amended [true] [true] (by decide)

/-- A backend environment in which every facade call succeeds. -/
def allOkBackend : BackendEnv := ⟨true, true, true, true, true, true⟩

/-- C4 (counterexample): as stated, the claim fails.  With the GPU probe
reading exactly 90 the code's strict `> 90.0` test does not fire: when the
VAAPI backend is fully available the selector instantiates `vaapih264enc`
and returns `VAAPI`, not `Software`, even though the probe value is
`≥ 90`. -/
theorem claim_C4_counterexample :
    read_gpu_usage (some 90) ≥ 90 ∧
      (setup_unified_hardware_accel
          ⟨some 90, allOkBackend, allOkBackend, allOkBackend,
            allOkBackend⟩).result = .ok .VAAPI ∧
      "vaapih264enc" ∈
        (setup_unified_hardware_accel
          ⟨some 90, allOkBackend, allOkBackend, allOkBackend,
            allOkBackend⟩).makes := by
  refine ⟨by norm_num [read_gpu_usage], ?_, ?_⟩
  · norm_num [setup_unified_hardware_accel, read_gpu_usage, hwTry,
      allOkBackend]
  · norm_num [setup_unified_hardware_accel, read_gpu_usage, hwTry,
      allOkBackend]

/-- C4 (amended): for every GPU-probe value strictly greater than 90 the
selector attempts no VAAPI/NVENC/AMF instantiation at all — the only
factory attempt is `x264enc` — and, whenever the software-encoder facade
calls succeed, it returns `Software`. -/
theorem claim_C4_amended (env : AccelEnv)
    (hg : read_gpu_usage env.gpuRaw > 90) :
    (setup_unified_hardware_accel env).makes = ["x264enc"] ∧
      (env.x264 = allOkBackend →
        (setup_unified_hardware_accel env).result = .ok .Software ∧
          (setup_unified_hardware_accel env).attached = ["x264enc"]) := by
  have hif : setup_unified_hardware_accel env
      = use_software_x264 env.x264 [] [] := by
    unfold setup_unified_hardware_accel
    rw [if_pos hg]
  constructor
  · rw [hif]
    unfold use_software_x264
    by_cases m1 : env.x264.makeOk = true
    all_goals by_cases m2 : env.x264.addOk = true
    all_goals by_cases m3 : env.x264.syncOk = true
    all_goals by_cases m4 : env.x264.linkUpOk = true
    all_goals by_cases m5 : env.x264.linkDownOk = true
    all_goals simp [m1, m2, m3, m4, m5]
  · intro hx
    rw [hif, hx]
    exact ⟨rfl, rfl⟩

/-- Witness for C4 (amended) at a concrete input. -/
theorem claim_C4_witness :
    (setup_unified_hardware_accel
        ⟨some 95, allOkBackend, allOkBackend, allOkBackend,
          allOkBackend⟩).makes = ["x264enc"] ∧
      (allOkBackend = allOkBackend →
        (setup_unified_hardware_accel
            ⟨some 95, allOkBackend, allOkBackend, allOkBackend,
              allOkBackend⟩).result = .ok .Software ∧
          (setup_unified_hardware_accel
            ⟨some 95, allOkBackend, allOkBackend, allOkBackend,
              allOkBackend⟩).attached = ["x264enc"]) :=
  claim_C4_amended
    ⟨some 95, allOkBackend, allOkBackend, allOkBackend, allOkBackend⟩
    (by norm_num [read_gpu_usage])

/-- C6: whenever the GPU probe does not read strictly above 90 and every
facade call of the VAAPI attempt succeeds (factory, add, sync, and both
links), the selector returns `VAAPI`, the only factory attempt is
`vaapih264enc` (no NVENC, AMF or software encoder is ever created), and
the only encoder attached is the VAAPI one. -/
theorem claim_C6_vaapi_first (env : AccelEnv)
    (hg : ¬ read_gpu_usage env.gpuRaw > 90) (hv : env.vaapi = allOkBackend) :
    (setup_unified_hardware_accel env).result = .ok .VAAPI ∧
      (setup_unified_hardware_accel env).makes = ["vaapih264enc"] ∧
      (setup_unified_hardware_accel env).attached = ["vaapih264enc"] := by
  have h : setup_unified_hardware_accel env
      = ⟨.ok .VAAPI, ["vaapih264enc"], ["vaapih264enc"]⟩ := by
    unfold setup_unified_hardware_accel
    rw [if_neg hg, hv]
    rfl
  rw [h]
  exact ⟨rfl, rfl, rfl⟩

/-- Witness for C6 at a concrete input. -/
theorem claim_C6_witness :
    (setup_unified_hardware_accel
        ⟨none, allOkBackend, allOkBackend, allOkBackend,
          allOkBackend⟩).result = .ok .VAAPI ∧
      (setup_unified_hardware_accel
        ⟨none, allOkBackend, allOkBackend, allOkBackend,
          allOkBackend⟩).makes = ["vaapih264enc"] ∧
      (setup_unified_hardware_accel
        ⟨none, allOkBackend, allOkBackend, allOkBackend,
          allOkBackend⟩).attached = ["vaapih264enc"] :=
  claim_C6_vaapi_first
    ⟨none, allOkBackend, allOkBackend, allOkBackend, allOkBackend⟩
    (by norm_num [read_gpu_usage]) rfl

/-- C8: for a valid scene index and a pad index matching one of that
scene's sources, `update_source_geometry` leaves the switcher's stored
scenes (and its whole state) unchanged, never writes the `alpha` property,
and — when the compositor pad exists — succeeds writing exactly `xpos`,
`ypos`, `width`, `height` on that pad. -/
theorem claim_C8_geometry_only (padOk : String → Bool) (sw : SceneSwitcher)
    (scene_index source_pad_index : ℕ) (x y width height : ℤ)
    (hidx : scene_index < sw.scenes.length)
    (hfind : ((sw.scenes.getD scene_index default).sources.find?
        (fun s => s.pad_index == source_pad_index)).isSome = true) :
    (update_source_geometry padOk sw scene_index source_pad_index
        x y width height).2.1 = sw ∧
      (∀ w ∈ (update_source_geometry padOk sw scene_index source_pad_index
          x y width height).2.2, w.prop ≠ "alpha") ∧
      (padOk (sinkPadName source_pad_index) = true →
        (update_source_geometry padOk sw scene_index source_pad_index
            x y width height).1 = .ok () ∧
          (update_source_geometry padOk sw scene_index source_pad_index
              x y width height).2.2
            = [⟨sinkPadName source_pad_index, "xpos", .i x⟩,
               ⟨sinkPadName source_pad_index, "ypos", .i y⟩,
               ⟨sinkPadName source_pad_index, "width", .i width⟩,
               ⟨sinkPadName source_pad_index, "height", .i height⟩]) := by
  unfold update_source_geometry
  rw [if_neg (by omega : ¬ scene_index ≥ sw.scenes.length)]
  cases hf : (sw.scenes.getD scene_index default).sources.find?
      (fun s => s.pad_index == source_pad_index) with
  | none => rw [hf] at hfind; simp at hfind
  | some src =>
      simp only [hf]
      by_cases hpad : padOk (sinkPadName source_pad_index) = true
      · simp [hpad]
      · simp [hpad]

/-- Witness for C8 at a concrete input. -/
theorem claim_C8_witness :
    (update_source_geometry (fun s => s == "sink_7")
        ⟨[⟨"main", [⟨7, 0, 0, 640, 360, 1⟩]⟩], 0, 1⟩ 0 7 25 30 320 180).2.1
      = ⟨[⟨"main", [⟨7, 0, 0, 640, 360, 1⟩]⟩], 0, 1⟩ ∧
    (∀ w ∈ (update_source_geometry (fun s => s == "sink_7")
        ⟨[⟨"main", [⟨7, 0, 0, 640, 360, 1⟩]⟩], 0, 1⟩ 0 7 25 30 320 180).2.2,
      w.prop ≠ "alpha") ∧
    ((fun s => s == "sink_7") (sinkPadName 7) = true →
      (update_source_geometry (fun s => s == "sink_7")
          ⟨[⟨"main", [⟨7, 0, 0, 640, 360, 1⟩]⟩], 0, 1⟩ 0 7 25 30 320 180).1
        = .ok () ∧
      (update_source_geometry (fun s => s == "sink_7")
          ⟨[⟨"main", [⟨7, 0, 0, 640, 360, 1⟩]⟩], 0, 1⟩ 0 7 25 30 320 180).2.2
        = [⟨sinkPadName 7, "xpos", .i 25⟩, ⟨sinkPadName 7, "ypos", .i 30⟩,
           ⟨sinkPadName 7, "width", .i 320⟩,
           ⟨sinkPadName 7, "height", .i 180⟩]) :=
  claim_C8_geometry_only (fun s => s == "sink_7")
    ⟨[⟨"main", [⟨7, 0, 0, 640, 360, 1⟩]⟩], 0, 1⟩ 0 7 25 30 320 180
    (by simp) (by simp [List.find?])

/-- When the first missing pad belongs to source `bad`, the layout loop
writes all five properties of every earlier source and then aborts with
the missing-pad error. -/
lemma applyLayoutGo_first_missing (padOk : String → Bool)
    (bad : SceneSource) (post : List SceneSource)
    (hbad : padOk (sinkPadName bad.pad_index) = false) :
    ∀ pre : List SceneSource,
      (∀ s ∈ pre, padOk (sinkPadName s.pad_index) = true) →
      applyLayoutGo padOk (pre ++ bad :: post)
        = (.error ("Cannot find compositor pad: "
              ++ sinkPadName bad.pad_index),
           (pre.map sourceLayoutWrites).flatten)
  | [], _ => by simp [applyLayoutGo, hbad]
  | s :: rest, hpre => by
      have hs : padOk (sinkPadName s.pad_index) = true :=
        hpre s (List.mem_cons_self s rest)
      have hrest : ∀ t ∈ rest, padOk (sinkPadName t.pad_index) = true :=
        fun t ht => hpre t (List.mem_cons_of_mem s ht)
      have ih := applyLayoutGo_first_missing padOk bad post hbad rest hrest
      simp [applyLayoutGo, hs, ih]

/-- C9: with a valid index whose scene reads `pre ++ bad :: post`, where
every source in `pre` has its compositor pad but `bad`'s pad is absent,
`set_initial_scene` returns the missing-pad error, yet
`current_scene_index` has already been set to the requested index and all
five property writes of every source in `pre` were already issued — the
operation is not atomic on error. -/
theorem claim_C9_index_set_before_layout (padOk : String → Bool)
    (sw : SceneSwitcher) (index : ℕ) (pre post : List SceneSource)
    (bad : SceneSource) (hidx : index < sw.scenes.length)
    (hsrcs : (sw.scenes.getD index default).sources = pre ++ bad :: post)
    (hpre : ∀ s ∈ pre, padOk (sinkPadName s.pad_index) = true)
    (hbad : padOk (sinkPadName bad.pad_index) = false) :
    (set_initial_scene padOk sw index).1
        = .error ("Cannot find compositor pad: "
            ++ sinkPadName bad.pad_index) ∧
      (set_initial_scene padOk sw index).2.1.current_scene_index = index ∧
      (set_initial_scene padOk sw index).2.2
        = (pre.map sourceLayoutWrites).flatten := by
  have hgo := applyLayoutGo_first_missing padOk bad post hbad pre hpre
  unfold set_initial_scene
  rw [if_neg (by omega : ¬ index ≥ sw.scenes.length)]
  simp only [apply_scene_layout]
  have hsc : ({ sw with current_scene_index := index } :
      SceneSwitcher).scenes = sw.scenes := rfl
  rw [hsc, hsrcs, hgo]
  simp

/-- Witness for C9 at a concrete input. -/
theorem claim_C9_witness :
    (set_initial_scene (fun s => s == "sink_0")
        ⟨[⟨"main", [⟨0, 0, 0, 640, 360, 1⟩, ⟨1, 5, 6, 320, 180, 1⟩]⟩], 0, 1⟩
        0).1
      = .error ("Cannot find compositor pad: " ++ sinkPadName 1) ∧
    (set_initial_scene (fun s => s == "sink_0")
        ⟨[⟨"main", [⟨0, 0, 0, 640, 360, 1⟩, ⟨1, 5, 6, 320, 180, 1⟩]⟩], 0, 1⟩
        0).2.1.current_scene_index = 0 ∧
    (set_initial_scene (fun s => s == "sink_0")
        ⟨[⟨"main", [⟨0, 0, 0, 640, 360, 1⟩, ⟨1, 5, 6, 320, 180, 1⟩]⟩], 0, 1⟩
        0).2.2
      = ([(⟨0, 0, 0, 640, 360, 1⟩ : SceneSource)].map sourceLayoutWrites).flatten :=
  claim_C9_index_set_before_layout (fun s => s == "sink_0")
    ⟨[⟨"main", [⟨0, 0, 0, 640, 360, 1⟩, ⟨1, 5, 6, 320, 180, 1⟩]⟩], 0, 1⟩
    0 [⟨0, 0, 0, 640, 360, 1⟩] [] ⟨1, 5, 6, 320, 180, 1⟩
    (by simp) rfl (by decide) (by decide)

/-- C3: a fade from a scene with single source `a` to a scene with single
source `b`, both pads present, starts successfully and schedules exactly 31
alpha write-rounds (steps 0..=30); round `n` writes `1 - n/30` on `a`'s pad
and `n/30` on `b`'s pad, so across rounds `a`'s alpha is monotonically
non-increasing and `b`'s monotonically non-decreasing, ending at
`a = 0` and `b = 1`. -/
theorem claim_C3_fade_rounds (padOk : String → Bool) (sw : SceneSwitcher)
    (old_idx new_idx : ℕ) (a b : SceneSource)
    (hA : (sw.scenes.getD old_idx default).sources = [a])
    (hB : (sw.scenes.getD new_idx default).sources = [b])
    (hpa : padOk (sinkPadName a.pad_index) = true)
    (hpb : padOk (sinkPadName b.pad_index) = true) :
    (fade_transition padOk sw old_idx new_idx).1 = .ok () ∧
      (fade_transition padOk sw old_idx new_idx).2.2.length = 31 ∧
      (∀ n : ℕ, n ≤ 30 →
        (fade_transition padOk sw old_idx new_idx).2.2[n]?
          = some [⟨sinkPadName a.pad_index, "alpha", .f (1 - (n : ℚ) / 30)⟩,
                  ⟨sinkPadName b.pad_index, "alpha", .f ((n : ℚ) / 30)⟩]) ∧
      (∀ n m : ℕ, n ≤ m →
        (1 - (m : ℚ) / 30) ≤ (1 - (n : ℚ) / 30) ∧
          ((n : ℚ) / 30) ≤ ((m : ℚ) / 30)) ∧
      (1 - (30 : ℚ) / 30) = 0 ∧ ((30 : ℚ) / 30) = 1 := by
  have hpre : fadePreGo padOk [b]
      = (.ok (), [⟨sinkPadName b.pad_index, "xpos", .i b.x⟩,
          ⟨sinkPadName b.pad_index, "ypos", .i b.y⟩,
          ⟨sinkPadName b.pad_index, "width", .i b.width⟩,
          ⟨sinkPadName b.pad_index, "height", .i b.height⟩,
          ⟨sinkPadName b.pad_index, "alpha", .f 0⟩]) := by
    simp [fadePreGo, hpb]
  have hft : fade_transition padOk sw old_idx new_idx
      = (.ok (), (fadePreGo padOk [b]).2, fadeSchedule padOk [a] [b]) := by
    unfold fade_transition
    rw [hA, hB]
    simp only [hpre]
  refine ⟨by rw [hft], ?_, ?_, ?_, by norm_num, by norm_num⟩
  · rw [hft]
    simp [fadeSchedule, fadeSteps]
  · intro n hn
    rw [hft]
    have hn' : n < 30 + 1 := by omega
    simp [fadeSchedule, fadeRound, fadeSteps, hpa, hpb,
      List.getElem?_map, List.getElem?_range, hn']
  · intro n m hnm
    have hc : (n : ℚ) ≤ (m : ℚ) := by exact_mod_cast hnm
    have hd : (n : ℚ) / 30 ≤ (m : ℚ) / 30 := by gcongr
    exact ⟨by linarith, hd⟩

/-- Witness for C3 at a concrete input. -/
theorem claim_C3_witness :
    (fade_transition (fun _ => true)
        ⟨[⟨"A", [⟨0, 0, 0, 640, 360, 1⟩]⟩, ⟨"B", [⟨1, 5, 6, 320, 180, 1⟩]⟩],
          0, 2⟩ 0 1).1 = .ok () ∧
      (fade_transition (fun _ => true)
        ⟨[⟨"A", [⟨0, 0, 0, 640, 360, 1⟩]⟩, ⟨"B", [⟨1, 5, 6, 320, 180, 1⟩]⟩],
          0, 2⟩ 0 1).2.2.length = 31 ∧
      (∀ n : ℕ, n ≤ 30 →
        (fade_transition (fun _ => true)
          ⟨[⟨"A", [⟨0, 0, 0, 640, 360, 1⟩]⟩, ⟨"B", [⟨1, 5, 6, 320, 180, 1⟩]⟩],
            0, 2⟩ 0 1).2.2[n]?
          = some [⟨sinkPadName 0, "alpha", .f (1 - (n : ℚ) / 30)⟩,
                  ⟨sinkPadName 1, "alpha", .f ((n : ℚ) / 30)⟩]) ∧
      (∀ n m : ℕ, n ≤ m →
        (1 - (m : ℚ) / 30) ≤ (1 - (n : ℚ) / 30) ∧
          ((n : ℚ) / 30) ≤ ((m : ℚ) / 30)) ∧
      (1 - (30 : ℚ) / 30) = 0 ∧ ((30 : ℚ) / 30) = 1 :=
  claim_C3_fade_rounds (fun _ => true)
    ⟨[⟨"A", [⟨0, 0, 0, 640, 360, 1⟩]⟩, ⟨"B", [⟨1, 5, 6, 320, 180, 1⟩]⟩],
      0, 2⟩ 0 1 ⟨0, 0, 0, 640, 360, 1⟩ ⟨1, 5, 6, 320, 180, 1⟩
    rfl rfl rfl rfl

/-- A loop iteration never assigns any manager field. -/
lemma sysTick_mgr_frame (alive : Bool) (now : ℚ) (s : Sys) :
    ((sysTick alive now s).1).mgr = s.mgr := rfl

/-- A loop iteration depends only on the task-local state and the shared
byte counter, not on the manager's scalar fields. -/
lemma sysTick_congr (alive : Bool) (now : ℚ) (s₁ s₂ : Sys)
    (hl : s₁.loop = s₂.loop) (hb : s₁.mgr.bytes_sent = s₂.mgr.bytes_sent) :
    (sysTick alive now s₁).1.loop = (sysTick alive now s₂).1.loop ∧
      (sysTick alive now s₁).2 = (sysTick alive now s₂).2 := by
  constructor <;> simp only [sysTick, hl, hb]

/-- Running the loop never assigns any manager field. -/
lemma runSys_mgr_frame :
    ∀ (ticks : List (Bool × ℚ)) (s : Sys), (runSys s ticks).1.mgr = s.mgr
  | [], _ => rfl
  | (alive, now) :: rest, s => by
      simpa [runSys] using runSys_mgr_frame rest (sysTick alive now s).1

/-- Running the loop is insensitive to the manager's scalar fields. -/
lemma runSys_congr :
    ∀ (ticks : List (Bool × ℚ)) (s₁ s₂ : Sys), s₁.loop = s₂.loop →
      s₁.mgr.bytes_sent = s₂.mgr.bytes_sent →
      (runSys s₁ ticks).1.loop = (runSys s₂ ticks).1.loop ∧
        (runSys s₁ ticks).2 = (runSys s₂ ticks).2
  | [], s₁, s₂, hl, _ => ⟨hl, rfl⟩
  | (alive, now) :: rest, s₁, s₂, hl, hb => by
      obtain ⟨hl', hw⟩ := sysTick_congr alive now s₁ s₂ hl hb
      have hb' : (sysTick alive now s₁).1.mgr.bytes_sent
          = (sysTick alive now s₂).1.mgr.bytes_sent := by
        rw [sysTick_mgr_frame, sysTick_mgr_frame]; exact hb
      obtain ⟨ihl, ihw⟩ := runSys_congr rest (sysTick alive now s₁).1
        (sysTick alive now s₂).1 hl' hb'
      refine ⟨by simpa [runSys] using ihl, ?_⟩
      simp only [runSys]
      rw [hw, ihw]

/-- C10: `start_adaptive_bitrate` copies `current_bitrate`, `min_bitrate`,
`max_bitrate`, `check_interval` and `last_check` into the task state at
call time (with `last_bytes` starting at 0) and leaves the manager intact;
every run of the loop leaves the manager's fields (in particular
`current_bitrate` and `last_check`) exactly as they were; and two systems
agreeing on the task-local state and the shared byte counter — but with
arbitrarily different manager scalar fields — produce identical loop
states and identical encoder bitrate writes. -/
theorem claim_C10_snapshot_isolation (m : Mgr) (s s₁ s₂ : Sys)
    (ticks : List (Bool × ℚ)) (hl : s₁.loop = s₂.loop)
    (hb : s₁.mgr.bytes_sent = s₂.mgr.bytes_sent) :
    start_adaptive_bitrate m
        = (m, ⟨m.min_bitrate, m.max_bitrate, m.check_interval,
            m.last_check, 0, m.current_bitrate⟩) ∧
      (runSys s ticks).1.mgr.current_bitrate = s.mgr.current_bitrate ∧
      (runSys s ticks).1.mgr.last_check = s.mgr.last_check ∧
      (runSys s ticks).1.mgr = s.mgr ∧
      (runSys s₁ ticks).1.loop = (runSys s₂ ticks).1.loop ∧
      (runSys s₁ ticks).2 = (runSys s₂ ticks).2 := by
  have hframe := runSys_mgr_frame ticks s
  obtain ⟨hcl, hcw⟩ := runSys_congr ticks s₁ s₂ hl hb
  exact ⟨rfl, by rw [hframe], by rw [hframe], hframe, hcl, hcw⟩

/-- Witness for C10 at a concrete input: the two systems differ in every
manager scalar field but share the task state and byte counter. -/
theorem claim_C10_witness :
    start_adaptive_bitrate ⟨2500, 1000, 8000, 5, 0, 0⟩
        = (⟨2500, 1000, 8000, 5, 0, 0⟩, ⟨1000, 8000, 5, 0, 0, 2500⟩) ∧
      (runSys ⟨⟨2500, 1000, 8000, 5, 0, 0⟩, ⟨1000, 8000, 5, 0, 0, 2500⟩⟩
          [(true, 5), (true, 10)]).1.mgr.current_bitrate = 2500 ∧
      (runSys ⟨⟨2500, 1000, 8000, 5, 0, 0⟩, ⟨1000, 8000, 5, 0, 0, 2500⟩⟩
          [(true, 5), (true, 10)]).1.mgr.last_check = 0 ∧
      (runSys ⟨⟨2500, 1000, 8000, 5, 0, 0⟩, ⟨1000, 8000, 5, 0, 0, 2500⟩⟩
          [(true, 5), (true, 10)]).1.mgr = ⟨2500, 1000, 8000, 5, 0, 0⟩ ∧
      (runSys ⟨⟨2500, 1000, 8000, 5, 0, 0⟩, ⟨1000, 8000, 5, 0, 0, 2500⟩⟩
          [(true, 5), (true, 10)]).1.loop
        = (runSys ⟨⟨99, 77, 55, 33, 11, 0⟩, ⟨1000, 8000, 5, 0, 0, 2500⟩⟩
            [(true, 5), (true, 10)]).1.loop ∧
      (runSys ⟨⟨2500, 1000, 8000, 5, 0, 0⟩, ⟨1000, 8000, 5, 0, 0, 2500⟩⟩
          [(true, 5), (true, 10)]).2
        = (runSys ⟨⟨99, 77, 55, 33, 11, 0⟩, ⟨1000, 8000, 5, 0, 0, 2500⟩⟩
            [(true, 5), (true, 10)]).2 :=
  claim_C10_snapshot_isolation ⟨2500, 1000, 8000, 5, 0, 0⟩
    ⟨⟨2500, 1000, 8000, 5, 0, 0⟩, ⟨1000, 8000, 5, 0, 0, 2500⟩⟩
    ⟨⟨2500, 1000, 8000, 5, 0, 0⟩, ⟨1000, 8000, 5, 0, 0, 2500⟩⟩
    ⟨⟨99, 77, 55, 33, 11, 0⟩, ⟨1000, 8000, 5, 0, 0, 2500⟩⟩
    [(true, 5), (true, 10)] rfl rfl

end Rustcord
